import Mathlib

/-!
Verification development for the ember-csi v1.0.0 CSI plugin
(ember_csi/v1_0_0/csi.py): a shallow embedding of the controller-side
content-source resolver, capability validator and wire converter, and the
node-side volume-stats reporter, together with theorems about the claims
of the natural-language specification.

External collaborators (the persistence layer, the backend driver, the
shared capability check, and the host OS) are modelled as explicit
function parameters; machine behaviour such as Python truthiness of
optional values is made explicit.
-/

set_option autoImplicit false

namespace EmberCSI

/-- The gRPC status codes this core signals via context.abort. -/
inductive StatusCode where
  | NOT_FOUND
  | INVALID_ARGUMENT
  | OUT_OF_RANGE
  deriving DecidableEq

/-- Python truthiness of an optional string: None and the empty string are
falsy, every other string is truthy. -/
def truthyStr : Option String → Bool
  | none => false
  | some s => !s.isEmpty

/-- Python truthiness of an optional list/dict: None and an empty
collection are falsy. -/
def truthyList {α : Type} : Option (List α) → Bool
  | none => false
  | some l => !l.isEmpty

/-- The persisted volume record (spec section 3, owned by the
persistence collaborator): id, size in GiB, status string, optional
back-references to a parent volume or source snapshot, and the
volume-type extra-specs mapping. -/
structure VolumeRecord where
  id : String
  size : Nat
  status : String
  source_volid : Option String := none
  snapshot_id : Option String := none
  volume_type_id : Option String := none
  extra_specs : List (String × String) := []
  deriving DecidableEq

/-- Outcome of the create-from-volume path: either an aborted gRPC call
or a successfully produced volume record. -/
inductive CreateOutcome where
  | abort (code : StatusCode) (msg : String)
  | success (vol : VolumeRecord)
  deriving DecidableEq

/-- Shallow embedding of Controller._create_from_vol.  The persistence
lookup (self._get_vol) and the backend clone primitive (src_vol.clone)
are passed in as functions; the extra creation params are opaque and
absorbed into the clone function. -/
def _create_from_vol (get_vol : String → Option VolumeRecord)
    (clone : VolumeRecord → String → Nat → VolumeRecord)
    (vol_id : String) (vol_size : Nat) (name : String) : CreateOutcome :=
  match get_vol vol_id with
  | none => .abort .NOT_FOUND ("Volume " ++ vol_id ++ " does not exist")
  | some src_vol =>
    if src_vol.status ≠ "available" ∧ src_vol.status ≠ "in-use" then
      .abort .INVALID_ARGUMENT ("Volume " ++ vol_id ++ " is not available")
    else if src_vol.size > vol_size then
      .abort .OUT_OF_RANGE ("Volume " ++ vol_id ++ " is bigger than requested volume")
    else
      .success (clone src_vol name vol_size)

/-- One requested capability: an access mode paired with an access type.
The validator treats these opaquely and hands them to the shared check. -/
structure Capability where
  access_mode : String
  access_type : String
  deriving DecidableEq

/-- The fields of a ValidateVolumeCapabilities request that the handler
body reads: volume id, requested capabilities, caller-supplied parameters
(as an ordered association list, matching dict iteration order) and the
caller-supplied volume context. -/
structure ValidateRequest where
  volume_id : String
  volume_capabilities : List Capability
  parameters : List (String × String) := []
  volume_context : List (String × String) := []
  deriving DecidableEq

/-- Outcome of ValidateVolumeCapabilities: an aborted call, a protocol
"not confirmed" response carrying a message, or a confirmed response
echoing context, capabilities and parameters. -/
inductive ValidateOutcome where
  | abort (code : StatusCode) (msg : String)
  | notConfirmed (message : String)
  | confirmed (volume_context : List (String × String))
      (volume_capabilities : List Capability)
      (parameters : List (String × String))
  deriving DecidableEq

/-- The parameter-matching loop of ValidateVolumeCapabilities: scan the
supplied parameters in order and return the first key whose value differs
from volume_context.get(key) (an absent key compares unequal, as in
Python where dict.get returns None). -/
def firstMismatch (params : List (String × String))
    (ctx : List (String × String)) : Option String :=
  match params with
  | [] => none
  | (k, v) :: rest =>
    if ctx.lookup k = some v then firstMismatch rest ctx else some k

/-- Shallow embedding of Controller.ValidateVolumeCapabilities.  The
persistence lookup (self._get_vol) and the shared capability check
(self._validate_capabilities, returning an incompatibility message or
None) are passed in as functions. -/
def ValidateVolumeCapabilities
    (get_vol : String → Option VolumeRecord)
    (validate_capabilities : List Capability → Option String)
    (req : ValidateRequest) : ValidateOutcome :=
  match get_vol req.volume_id with
  | none => .abort .NOT_FOUND ("Volume " ++ req.volume_id ++ " does not exist")
  | some _vol =>
    match validate_capabilities req.volume_capabilities with
    | some message => .notConfirmed message
    | none =>
      match firstMismatch req.parameters req.volume_context with
      | some k => .notConfirmed ("Parameter " ++ k ++ " does not match")
      | none =>
        .confirmed req.volume_context req.volume_capabilities req.parameters

/-- The volume's recorded context per spec section 4.2: the volume-type
extra-specs mapping when the volume has a type, empty otherwise. -/
def recordedContext (vol : VolumeRecord) : List (String × String) :=
  if truthyStr vol.volume_type_id then vol.extra_specs else []

/-- Spec-worded variant of ValidateVolumeCapabilities, for comparison
with the source: section 4.3 step 3 says each supplied parameter is
compared "against the same key in the volume's recorded context", i.e.
against recordedContext of the fetched record rather than against the
caller-supplied request.volume_context. -/
def ValidateVolumeCapabilitiesSpec
    (get_vol : String → Option VolumeRecord)
    (validate_capabilities : List Capability → Option String)
    (req : ValidateRequest) : ValidateOutcome :=
  match get_vol req.volume_id with
  | none => .abort .NOT_FOUND ("Volume " ++ req.volume_id ++ " does not exist")
  | some vol =>
    match validate_capabilities req.volume_capabilities with
    | some message => .notConfirmed message
    | none =>
      match firstMismatch req.parameters (recordedContext vol) with
      | some k => .notConfirmed ("Parameter " ++ k ++ " does not match")
      | none =>
        .confirmed req.volume_context req.volume_capabilities req.parameters

/-- Wire content-source provenance: either "cloned from volume X" or
"created from snapshot Y" (types.VolumeContentSource). -/
inductive VolumeContentSource where
  | volume (volume_id : String)
  | snapshot (snapshot_id : String)
  deriving DecidableEq

/-- A wire topology: a set of key/value location segments
(types.Topology). -/
structure Topology where
  segments : List (String × String)
  deriving DecidableEq

/-- The wire volume representation built by the converter
(types.Volume): capacity in bytes, id, the context mapping (absent when
the record has no volume type), and the optional content-source and
accessible-topology fields. -/
structure WireVolume where
  capacity_bytes : Nat
  volume_id : String
  volume_context : Option (List (String × String)) := none
  content_source : Option VolumeContentSource := none
  accessible_topology : Option (List Topology) := none
  deriving DecidableEq

/-- constants.GB: bytes in one gibibyte. -/
def GB : Nat := 1073741824

/-- Shallow embedding of Controller._convert_volume_type.  The
instance's GRPC_TOPOLOGIES attribute is a parameter.  The source reads
the record's parent-volume back-reference under two spellings
(source_volid in the guard, source_vol_id in the emitted message); per
the data model of spec section 3 the record carries a single such field,
which both spellings denote here.  Guards follow Python truthiness of
the optional fields. -/
def _convert_volume_type (grpc_topologies : Option (List Topology))
    (vol : VolumeRecord) : WireVolume :=
  let specs := if truthyStr vol.volume_type_id then some vol.extra_specs else none
  let content_source :=
    if truthyStr vol.source_volid then
      some (VolumeContentSource.volume (vol.source_volid.getD ""))
    else if truthyStr vol.snapshot_id then
      some (VolumeContentSource.snapshot (vol.snapshot_id.getD ""))
    else
      none
  { capacity_bytes := vol.size * GB
    volume_id := vol.id
    volume_context := specs
    content_source := content_source
    accessible_topology :=
      if truthyList grpc_topologies then grpc_topologies else none }

/-- The service-type capabilities advertised in PLUGIN_CAPABILITIES;
VOLUME_ACCESSIBILITY_CONSTRAINTS is the accessibility-constraints
capability, other distinguishes any other advertised capability. -/
inductive ServiceType where
  | VOLUME_ACCESSIBILITY_CONSTRAINTS
  | other (n : Nat)
  deriving DecidableEq

/-- The accessibility-constraints capability registered by the node
constructor (types.ServiceType.VOLUME_ACCESSIBILITY_CONSTRAINTS). -/
def topo_capab : ServiceType := .VOLUME_ACCESSIBILITY_CONSTRAINTS

/-- The number of occurrences of a capability in a capability list. -/
def countCap (caps : List ServiceType) (c : ServiceType) : Nat :=
  (caps.filter (fun x => decide (x = c))).length

/-- The configuration consumed at construction (spec section 6): an
optional static topology-segment mapping (CONF.NODE_TOPOLOGY). -/
structure EmberConfig where
  node_topology : Option (List (String × String)) := none
  deriving DecidableEq

/-- The wire node-info response (types.NodeInfoResp): the node id and
the optional accessible-topology field. -/
structure NodeInfoResp where
  node_id : Option String := none
  accessible_topology : Option Topology := none
  deriving DecidableEq

/-- The capability-registration step of Node.__init__: when node
topology is configured, append VOLUME_ACCESSIBILITY_CONSTRAINTS to
PLUGIN_CAPABILITIES unless it is already present. -/
def nodeInitCaps (conf : EmberConfig)
    (plugin_capabilities : List ServiceType) : List ServiceType :=
  if truthyList conf.node_topology then
    if topo_capab ∈ plugin_capabilities then plugin_capabilities
    else plugin_capabilities ++ [topo_capab]
  else plugin_capabilities

/-- The NODE_TOPOLOGY attribute set by Node.__init__: a Topology built
from the configured segments when node topology is configured, None
otherwise. -/
def nodeTopology (conf : EmberConfig) : Option Topology :=
  if truthyList conf.node_topology then
    some { segments := conf.node_topology.getD [] }
  else none

/-- The observable state established by Node.__init__. -/
structure NodeState where
  plugin_capabilities : List ServiceType
  node_topology : Option Topology
  node_info_resp : NodeInfoResp
  deriving DecidableEq

/-- Shallow embedding of Node.__init__: register the topology capability
when configured, set NODE_TOPOLOGY, and build node_info_resp, adding
accessible_topology to it only when NODE_TOPOLOGY is set. -/
def nodeInit (conf : EmberConfig) (plugin_capabilities : List ServiceType)
    (node_id : Option String) : NodeState :=
  let caps := nodeInitCaps conf plugin_capabilities
  let nt := nodeTopology conf
  { plugin_capabilities := caps
    node_topology := nt
    node_info_resp := { node_id := node_id, accessible_topology := nt } }

/-- Modelled from the spec: base.TopologyBase._init_topology, which sets
the controller's GRPC_TOPOLOGIES attribute, is repository code not under
src/.  Per spec section 4.5, when topology segments are configured the
instance builds its advertised topology segment set, otherwise it
advertises none. -/
def initTopology (conf : EmberConfig) : Option (List Topology) :=
  if truthyList conf.node_topology then
    some [{ segments := conf.node_topology.getD [] }]
  else none

/-- The filesystem entry kind distinguished by the stats reporter:
S_ISDIR(st_mode) true or false. -/
inductive FileType where
  | directory
  | blockOrOther
  deriving DecidableEq

/-- The os.statvfs fields the stats reporter reads. -/
structure StatVFS where
  f_frsize : Nat
  f_blocks : Nat
  f_bavail : Nat
  deriving DecidableEq

/-- The node-side environment: the host OS calls and the base-class
helpers NodeGetVolumeStats consults. -/
structure NodeEnv where
  /-- os.stat at a path: the entry kind, or none when stat raises
  OSError (path missing, permission denied, ...). -/
  stat : String → Option FileType
  /-- Modelled from the spec: base.NodeBase._get_device is repository
  code not under src/; per spec section 6 it resolves a path to the
  mount source bound there, or absent. -/
  get_device : String → Option String
  /-- Modelled from the spec: base.NodeBase._get_vol_device is
  repository code not under src/; per spec section 6 and its use in the
  source it yields the device recorded for a volume id (possibly absent)
  together with the private bind path the plugin used for it. -/
  get_vol_device : String → Option String × String
  /-- os.statvfs at a directory path. -/
  statvfs : String → StatVFS
  /-- Reading and parsing the block-subsystem size attribute at a path;
  none models an unreadable attribute (an I/O error on open/read). -/
  read_size_file : String → Option Nat

/-- os.path.basename for the slash-separated device names used here:
everything after the last slash. -/
def basename (p : String) : String :=
  String.mk (p.data.foldl (fun acc c => if c = '/' then [] else acc ++ [c]) [])

/-- Outcome of NodeGetVolumeStats: an aborted gRPC call, a usage
response (total plus the possibly-absent used/available figures), or an
uncaught I/O error propagating out of the handler (recording the path
whose read failed). -/
inductive StatsOutcome where
  | abort (code : StatusCode) (msg : String)
  | ok (total : Int) (used : Option Int) (available : Option Int)
  | ioError (path : String)
  deriving DecidableEq

/-- Shallow embedding of Node.NodeGetVolumeStats.  The try/except around
os.stat maps OSError to a NOT_FOUND abort; the open of the device size
attribute in the block branch has no such handler, so its failure is the
ioError outcome.  The device guard compares the mount source resolved
from the path against the private bind path, with Python truthiness for
the recorded device. -/
def NodeGetVolumeStats (env : NodeEnv)
    (volume_id volume_path : String) : StatsOutcome :=
  match env.stat volume_path with
  | none => .abort .NOT_FOUND ("Cannot access path " ++ volume_path)
  | some st_mode =>
    let device_for_path := env.get_device volume_path
    let dv := env.get_vol_device volume_id
    let device_for_vol := dv.1
    let private_bind := dv.2
    if truthyStr device_for_vol = false ∨ device_for_path ≠ some private_bind then
      .abort .NOT_FOUND ("Path does not match with requested volume")
    else
      match st_mode with
      | .directory =>
        let stats := env.statvfs volume_path
        let size : Int := stats.f_frsize * stats.f_blocks
        let available : Int := stats.f_frsize * stats.f_bavail
        let used : Int := size - available
        .ok size (some used) (some available)
      | .blockOrOther =>
        let size_name :=
          "/sys/class/block/" ++ basename (device_for_vol.getD "") ++ "/size"
        match env.read_size_file size_name with
        | none => .ioError size_name
        | some blocks => .ok (512 * blocks) none none

/-- A concrete persisted volume whose status and size both violate the
clone preconditions against a requested size of 5. -/
def c1_src : VolumeRecord := { id := "v-err", size := 10, status := "error" }

/-- A persistence lookup holding exactly c1_src. -/
def c1_get_vol : String → Option VolumeRecord :=
  fun vid => if vid = "v-err" then some c1_src else none

/-- A concrete backend clone primitive for fixtures: the derived record
keeps the source's lineage and takes the requested size, with a
back-reference to the source. -/
def c1_clone : VolumeRecord → String → Nat → VolumeRecord :=
  fun src _name size =>
    { src with id := "new-vol", size := size, source_volid := some src.id }

/-- A shared capability check reporting no incompatibility. -/
def noIncompat : List Capability → Option String := fun _ => none

/-- A concrete volume whose recorded context maps k to a. -/
def c2_vol : VolumeRecord :=
  { id := "v1", size := 1, status := "available",
    volume_type_id := some "t1", extra_specs := [("k", "a")] }

/-- A persistence lookup holding exactly c2_vol. -/
def c2_get_vol : String → Option VolumeRecord :=
  fun vid => if vid = "v1" then some c2_vol else none

/-- A nonempty requested capability set for fixtures. -/
def c2_caps : List Capability :=
  [{ access_mode := "SINGLE_NODE_WRITER", access_type := "mount" }]

/-- A request whose parameter k:b matches its own caller-supplied
volume_context but contradicts the volume's recorded context k:a. -/
def c2_req : ValidateRequest :=
  { volume_id := "v1", volume_capabilities := c2_caps,
    parameters := [("k", "b")], volume_context := [("k", "b")] }

/-- A request whose parameter k2:x mismatches its empty volume_context. -/
def c2_mis_req : ValidateRequest :=
  { volume_id := "v1", volume_capabilities := c2_caps,
    parameters := [("k2", "x")], volume_context := [] }

/-- A plain volume for the absent-parameter-key fixture. -/
def c10_vol : VolumeRecord := { id := "v2", size := 1, status := "available" }

/-- A persistence lookup holding exactly c10_vol. -/
def c10_get_vol : String → Option VolumeRecord :=
  fun vid => if vid = "v2" then some c10_vol else none

/-- A request supplying parameter p1:x while its volume_context has no
key p1 at all. -/
def c10_req : ValidateRequest :=
  { volume_id := "v2", volume_capabilities := c2_caps,
    parameters := [("p1", "x")], volume_context := [] }

/-- A volume cloned from another volume (source_volid set). -/
def c3_vol : VolumeRecord :=
  { id := "v3", size := 2, status := "available", source_volid := some "parent" }

/-- The node environment for the unreadable-size-attribute fixture: a
block-mode path that stats fine and passes the device guard, but whose
device size attribute cannot be read. -/
def c4_env : NodeEnv :=
  { stat := fun p => if p = "/dev/target" then some .blockOrOther else none
    get_device := fun p =>
      if p = "/dev/target" then some "/ember/binds/v1" else none
    get_vol_device := fun vid =>
      if vid = "v1" then (some "/dev/sda", "/ember/binds/v1") else (none, "")
    statvfs := fun _ => { f_frsize := 0, f_blocks := 0, f_bavail := 0 }
    read_size_file := fun _ => none }

/-- A node environment where no path can be stat'ed. -/
def c4w_env : NodeEnv :=
  { stat := fun _ => none
    get_device := fun _ => none
    get_vol_device := fun _ => (none, "")
    statvfs := fun _ => { f_frsize := 0, f_blocks := 0, f_bavail := 0 }
    read_size_file := fun _ => none }

/-- The node environment for the device-mismatch fixture: the path is an
accessible directory whose resolved mount source is the volume's private
bind path, while the device recorded for the volume is a different
string (/dev/sda). -/
def c5_env : NodeEnv :=
  { stat := fun p => if p = "/mnt/target" then some .directory else none
    get_device := fun p =>
      if p = "/mnt/target" then some "/ember/binds/v1" else none
    get_vol_device := fun vid =>
      if vid = "v1" then (some "/dev/sda", "/ember/binds/v1") else (none, "")
    statvfs := fun _ => { f_frsize := 4, f_blocks := 2, f_bavail := 1 }
    read_size_file := fun _ => none }

/-- A node environment with one directory path and one block path, both
bound for volume v6, whose device size attribute reads 2048 blocks. -/
def c6_env : NodeEnv :=
  { stat := fun p =>
      if p = "/mnt/d" then some .directory
      else if p = "/mnt/b" then some .blockOrOther
      else none
    get_device := fun p =>
      if p = "/mnt/d" then some "/ember/binds/v6"
      else if p = "/mnt/b" then some "/ember/binds/v6"
      else none
    get_vol_device := fun vid =>
      if vid = "v6" then (some "/dev/sdb", "/ember/binds/v6") else (none, "")
    statvfs := fun _ => { f_frsize := 4096, f_blocks := 100, f_bavail := 25 }
    read_size_file := fun p =>
      if p = "/sys/class/block/sdb/size" then some 2048 else none }

/-- A configuration with no node topology. -/
def c7_conf : EmberConfig := { node_topology := none }

/-- A plain volume for the topology-omission fixture. -/
def c7_vol : VolumeRecord := { id := "v7", size := 3, status := "available" }

/-- A configuration with a node topology segment. -/
def c9_conf : EmberConfig := { node_topology := some [("rack", "r1")] }

/-! Helper lemmas about the parameter-matching scan and capability
counting, shared by the claim theorems below. -/

theorem firstMismatch_append (ctx pre : List (String × String)) (k v : String)
    (post : List (String × String))
    (hpre : ∀ p ∈ pre, ctx.lookup p.1 = some p.2)
    (hmis : ctx.lookup k ≠ some v) :
    firstMismatch (pre ++ (k, v) :: post) ctx = some k := by
  induction pre with
  | nil => simp [firstMismatch, hmis]
  | cons p rest ih =>
    obtain ⟨k1, v1⟩ := p
    have hp : ctx.lookup k1 = some v1 := hpre (k1, v1) (by simp)
    simpa [firstMismatch, hp] using ih (fun q hq => hpre q (by simp [hq]))

theorem firstMismatch_isSome (ctx params : List (String × String)) (k v : String)
    (hmem : (k, v) ∈ params) (hmis : ctx.lookup k ≠ some v) :
    ∃ m, firstMismatch params ctx = some m := by
  induction params with
  | nil => cases hmem
  | cons p rest ih =>
    obtain ⟨k1, v1⟩ := p
    by_cases h : ctx.lookup k1 = some v1
    · rcases List.mem_cons.mp hmem with heq | hm
      · rw [Prod.mk.injEq] at heq
        exact absurd (heq.1 ▸ heq.2 ▸ h) hmis
      · simpa [firstMismatch, h] using ih hm
    · exact ⟨k1, by simp [firstMismatch, h]⟩

theorem countCap_append (l1 l2 : List ServiceType) (c : ServiceType) :
    countCap (l1 ++ l2) c = countCap l1 c + countCap l2 c := by
  simp [countCap, List.filter_append]

theorem countCap_eq_zero (l : List ServiceType) (c : ServiceType) (h : c ∉ l) :
    countCap l c = 0 := by
  simp only [countCap, List.length_eq_zero]
  rw [List.filter_eq_nil_iff]
  intro a ha
  simp only [decide_eq_true_eq]
  exact fun hac => h (hac ▸ ha)

theorem countCap_singleton (c : ServiceType) : countCap [c] c = 1 := by
  simp [countCap]

theorem nodeInitCaps_count_le (conf : EmberConfig) (cs : List ServiceType)
    (h : countCap cs topo_capab ≤ 1) :
    countCap (nodeInitCaps conf cs) topo_capab ≤ 1 := by
  unfold nodeInitCaps
  split
  · split
    · exact h
    · next hmem =>
      rw [countCap_append, countCap_eq_zero cs topo_capab hmem, countCap_singleton]
  · exact h

/-- C1 (counterexample): at a source volume whose status is error and
whose size 10 exceeds the requested size 5, the size condition is
violated yet the operation aborts with INVALID_ARGUMENT, not
OUT_OF_RANGE, because the status check runs first — refuting the reading
that OutOfRange is produced exactly when the size condition is violated. -/
theorem C1_counterexample :
    c1_get_vol "v-err" = some c1_src ∧ c1_src.size > 5 ∧
    c1_src.status = "error" ∧
    _create_from_vol c1_get_vol c1_clone "v-err" 5 "new" =
      .abort .INVALID_ARGUMENT ("Volume v-err is not available") :=
  ⟨by decide, by decide, rfl, by decide⟩

/-- C1 (amended): for a create-from-volume request, a missing source
volume aborts with NOT_FOUND; when the source exists, cloning succeeds
iff its status is available or in-use and its size is at most the
requested size; InvalidArgument is produced exactly when the status
condition is violated; OutOfRange is produced exactly when the status
condition holds and the size condition is violated. -/
theorem C1_create_from_vol_characterization
    (get_vol : String → Option VolumeRecord)
    (clone : VolumeRecord → String → Nat → VolumeRecord)
    (vol_id name : String) (vol_size : Nat) :
    (get_vol vol_id = none →
      _create_from_vol get_vol clone vol_id vol_size name =
        .abort .NOT_FOUND ("Volume " ++ vol_id ++ " does not exist")) ∧
    (∀ src, get_vol vol_id = some src →
      (((src.status = "available" ∨ src.status = "in-use") ∧ src.size ≤ vol_size) →
        _create_from_vol get_vol clone vol_id vol_size name =
          .success (clone src name vol_size)) ∧
      (¬(src.status = "available" ∨ src.status = "in-use") →
        _create_from_vol get_vol clone vol_id vol_size name =
          .abort .INVALID_ARGUMENT ("Volume " ++ vol_id ++ " is not available")) ∧
      ((src.status = "available" ∨ src.status = "in-use") → vol_size < src.size →
        _create_from_vol get_vol clone vol_id vol_size name =
          .abort .OUT_OF_RANGE
            ("Volume " ++ vol_id ++ " is bigger than requested volume"))) := by
  constructor
  · intro h
    simp [_create_from_vol, h]
  · intro src hsrc
    refine ⟨?_, ?_, ?_⟩
    · rintro ⟨hst, hsz⟩
      have h1 : ¬(src.status ≠ "available" ∧ src.status ≠ "in-use") := by
        rcases hst with h | h <;> simp [h]
      simp [_create_from_vol, hsrc, h1, Nat.not_lt.mpr hsz]
    · intro hst
      push_neg at hst
      simp [_create_from_vol, hsrc, hst.1, hst.2]
    · intro hst hsz
      have h1 : ¬(src.status ≠ "available" ∧ src.status ≠ "in-use") := by
        rcases hst with h | h <;> simp [h]
      simp [_create_from_vol, hsrc, h1, hsz]

/-- C1 (witness): a lookup with no volumes gives NOT_FOUND. -/
theorem C1_witness :
    _create_from_vol (fun _ => none) c1_clone "vX" 7 "n" =
      .abort .NOT_FOUND ("Volume vX does not exist") :=
  (C1_create_from_vol_characterization (fun _ => none) c1_clone "vX" "n" 7).1 rfl

/-- C2 (counterexample): the volume's recorded context maps k to a, the
caller supplies parameter k:b, and the operation returns confirmed — the
code compares the parameter against the caller-supplied
request.volume_context (also k:b), not against the volume's recorded
context, which the spec-worded variant would flag as a mismatch. -/
theorem C2_counterexample :
    (recordedContext c2_vol).lookup "k" = some "a" ∧
    c2_req.parameters = [("k", "b")] ∧
    ValidateVolumeCapabilities c2_get_vol noIncompat c2_req =
      .confirmed [("k", "b")] c2_caps [("k", "b")] ∧
    ValidateVolumeCapabilitiesSpec c2_get_vol noIncompat c2_req =
      .notConfirmed ("Parameter k does not match") :=
  ⟨by decide, rfl, by decide, by decide⟩

/-- C2 (amended): in ValidateVolumeCapabilities, for a request whose
volume exists and whose capability set passes the shared check, each
supplied parameter key's value is compared against the same key in the
caller-supplied request volume_context, and at the first mismatching
entry the operation returns a not-confirmed response whose message names
that key. -/
theorem C2_first_mismatch_names_key
    (get_vol : String → Option VolumeRecord)
    (validate_capabilities : List Capability → Option String)
    (req : ValidateRequest) (vol : VolumeRecord)
    (pre : List (String × String)) (k v : String)
    (post : List (String × String))
    (hvol : get_vol req.volume_id = some vol)
    (hcaps : validate_capabilities req.volume_capabilities = none)
    (hparams : req.parameters = pre ++ (k, v) :: post)
    (hpre : ∀ p ∈ pre, req.volume_context.lookup p.1 = some p.2)
    (hmis : req.volume_context.lookup k ≠ some v) :
    ValidateVolumeCapabilities get_vol validate_capabilities req =
      .notConfirmed ("Parameter " ++ k ++ " does not match") := by
  have h := firstMismatch_append req.volume_context pre k v post hpre hmis
  simp [ValidateVolumeCapabilities, hvol, hcaps, hparams, h]

/-- C2 (witness): a request with a mismatching first parameter is
not confirmed with a message naming it. -/
theorem C2_witness :
    ValidateVolumeCapabilities c2_get_vol noIncompat c2_mis_req =
      .notConfirmed ("Parameter k2 does not match") :=
  C2_first_mismatch_names_key c2_get_vol noIncompat c2_mis_req c2_vol
    [] "k2" "x" [] (by decide) rfl rfl (by simp) (by decide)

/-- C10: in ValidateVolumeCapabilities, when the volume exists and the
shared capability check passes, a supplied parameter key absent from the
caller-supplied volume_context is treated as a value mismatch: the
outcome is a not-confirmed response (not an abort, not confirmed), and
when the scan reaches that key first its message names it. -/
theorem C10_absent_key_treated_as_mismatch
    (get_vol : String → Option VolumeRecord)
    (validate_capabilities : List Capability → Option String)
    (req : ValidateRequest) (vol : VolumeRecord) (k v : String)
    (hvol : get_vol req.volume_id = some vol)
    (hcaps : validate_capabilities req.volume_capabilities = none)
    (hmem : (k, v) ∈ req.parameters)
    (habsent : req.volume_context.lookup k = none) :
    (∃ m, ValidateVolumeCapabilities get_vol validate_capabilities req =
      .notConfirmed ("Parameter " ++ m ++ " does not match")) ∧
    (∀ pre post, req.parameters = pre ++ (k, v) :: post →
      (∀ p ∈ pre, req.volume_context.lookup p.1 = some p.2) →
      ValidateVolumeCapabilities get_vol validate_capabilities req =
        .notConfirmed ("Parameter " ++ k ++ " does not match")) := by
  have hmis : req.volume_context.lookup k ≠ some v := by simp [habsent]
  constructor
  · obtain ⟨m, hm⟩ :=
      firstMismatch_isSome req.volume_context req.parameters k v hmem hmis
    exact ⟨m, by simp [ValidateVolumeCapabilities, hvol, hcaps, hm]⟩
  · intro pre post hparams hpre
    have h := firstMismatch_append req.volume_context pre k v post hpre hmis
    simp [ValidateVolumeCapabilities, hvol, hcaps, hparams, h]

/-- C10 (witness): parameter p1:x with a context lacking p1 is not
confirmed with a message naming p1. -/
theorem C10_witness :
    ValidateVolumeCapabilities c10_get_vol noIncompat c10_req =
      .notConfirmed ("Parameter p1 does not match") :=
  (C10_absent_key_treated_as_mismatch c10_get_vol noIncompat c10_req c10_vol
    "p1" "x" (by decide) rfl (by decide) (by decide)).2 [] [] rfl (by simp)

/-- C3: in the wire conversion, a record whose source_volid is set (a
truthy value, i.e. a non-null non-empty id) yields a content-source tag
of kind volume naming that id and hence never one of kind snapshot; a
record with source_volid unset and snapshot_id set yields a tag of kind
snapshot naming the snapshot id; with neither set the result carries no
content-source tag. -/
theorem C3_content_source_tags (gt : Option (List Topology))
    (vol : VolumeRecord) :
    (∀ s, vol.source_volid = some s → s ≠ "" →
      (_convert_volume_type gt vol).content_source =
        some (VolumeContentSource.volume s)) ∧
    (truthyStr vol.source_volid = false →
      ∀ t, vol.snapshot_id = some t → t ≠ "" →
      (_convert_volume_type gt vol).content_source =
        some (VolumeContentSource.snapshot t)) ∧
    (truthyStr vol.source_volid = false → truthyStr vol.snapshot_id = false →
      (_convert_volume_type gt vol).content_source = none) := by
  refine ⟨?_, ?_, ?_⟩
  · intro s hs hne
    have ht : truthyStr (some s) = true := by
      simp [truthyStr, Bool.eq_false_iff, String.isEmpty_iff, hne]
    simp [_convert_volume_type, hs, ht]
  · intro hf t htid hne
    have ht : truthyStr (some t) = true := by
      simp [truthyStr, Bool.eq_false_iff, String.isEmpty_iff, hne]
    simp [_convert_volume_type, hf, htid, ht]
  · intro h1 h2
    simp [_convert_volume_type, h1, h2]

/-- C3 (witness): a record cloned from volume parent carries the
volume-kind tag naming parent. -/
theorem C3_witness :
    (_convert_volume_type none c3_vol).content_source =
      some (VolumeContentSource.volume "parent") :=
  (C3_content_source_tags none c3_vol).1 "parent" rfl (by decide)

/-- C4 (counterexample): a block-mode path that stats fine and passes
the device guard, but whose device size attribute is unreadable, makes
the operation propagate a raw I/O error (the open has no exception
handler) instead of aborting with NOT_FOUND. -/
theorem C4_counterexample :
    c4_env.read_size_file "/sys/class/block/sda/size" = none ∧
    NodeGetVolumeStats c4_env "v1" "/dev/target" =
      .ioError ("/sys/class/block/sda/size") :=
  ⟨rfl, by decide⟩

/-- C4 (amended): only the stat of the path is normalized — an
inaccessible path aborts with NOT_FOUND — while an unreadable
device-size attribute in the block branch escapes as a raw I/O error. -/
theorem C4_stat_failure_normalized (env : NodeEnv)
    (volume_id volume_path : String) :
    (env.stat volume_path = none →
      NodeGetVolumeStats env volume_id volume_path =
        .abort .NOT_FOUND ("Cannot access path " ++ volume_path)) ∧
    (env.stat volume_path = some .blockOrOther →
      truthyStr (env.get_vol_device volume_id).1 = true →
      env.get_device volume_path = some (env.get_vol_device volume_id).2 →
      env.read_size_file ("/sys/class/block/" ++
        basename ((env.get_vol_device volume_id).1.getD "") ++ "/size") = none →
      NodeGetVolumeStats env volume_id volume_path =
        .ioError ("/sys/class/block/" ++
          basename ((env.get_vol_device volume_id).1.getD "") ++ "/size")) := by
  constructor
  · intro h
    simp [NodeGetVolumeStats, h]
  · intro hstat hdev hmatch hread
    simp [NodeGetVolumeStats, hstat, hdev, hmatch, hread]

/-- C4 (witness): an environment where stat fails aborts NOT_FOUND. -/
theorem C4_witness :
    NodeGetVolumeStats c4w_env "v" "/p" =
      .abort .NOT_FOUND ("Cannot access path /p") :=
  (C4_stat_failure_normalized c4w_env "v" "/p").1 rfl

/-- C5 (counterexample): the device recorded for volume v1 is /dev/sda
while the mount source resolved from the accessible path is the private
bind path, so the two differ — the claim demands NOT_FOUND — yet the
operation returns a stats response, because the source compares the
resolved mount source against the private bind path, not against the
recorded device. -/
theorem C5_counterexample :
    c5_env.stat "/mnt/target" = some .directory ∧
    (c5_env.get_vol_device "v1").1 = some "/dev/sda" ∧
    c5_env.get_device "/mnt/target" = some "/ember/binds/v1" ∧
    (("/ember/binds/v1" : String) ≠ "/dev/sda") ∧
    NodeGetVolumeStats c5_env "v1" "/mnt/target" =
      .ok 8 (some 4) (some 4) :=
  ⟨rfl, rfl, rfl, by decide, by decide⟩

/-- C5 (amended): for an accessible path, the operation aborts with
NOT_FOUND when no device is recorded for the volume id or when the mount
source resolved from the path differs from the volume's private bind
path. -/
theorem C5_bind_path_mismatch_not_found (env : NodeEnv)
    (volume_id volume_path : String) (ft : FileType)
    (hstat : env.stat volume_path = some ft)
    (h : truthyStr (env.get_vol_device volume_id).1 = false ∨
      env.get_device volume_path ≠ some (env.get_vol_device volume_id).2) :
    NodeGetVolumeStats env volume_id volume_path =
      .abort .NOT_FOUND ("Path does not match with requested volume") := by
  rcases h with h | h
  · simp [NodeGetVolumeStats, hstat, h]
  · simp [NodeGetVolumeStats, hstat, h]

/-- C5 (witness): a volume id with no recorded device aborts NOT_FOUND
though the path is accessible. -/
theorem C5_witness :
    NodeGetVolumeStats c5_env "v2" "/mnt/target" =
      .abort .NOT_FOUND ("Path does not match with requested volume") :=
  C5_bind_path_mismatch_not_found c5_env "v2" "/mnt/target" .directory
    (by decide) (Or.inl (by decide))

/-- C6: past the path and device checks, a directory path yields
total = f_frsize * f_blocks and available = f_frsize * f_bavail with
used defined as their difference, so used + available = total exactly;
a non-directory path yields absent used and available and
total = 512 * blocks as read from the device size attribute. -/
theorem C6_usage_figures (env : NodeEnv) (volume_id volume_path : String)
    (hdev : truthyStr (env.get_vol_device volume_id).1 = true)
    (hmatch : env.get_device volume_path = some (env.get_vol_device volume_id).2) :
    (env.stat volume_path = some .directory →
      NodeGetVolumeStats env volume_id volume_path =
        .ok (((env.statvfs volume_path).f_frsize : Int) *
            ((env.statvfs volume_path).f_blocks : Int))
          (some (((env.statvfs volume_path).f_frsize : Int) *
              ((env.statvfs volume_path).f_blocks : Int) -
            ((env.statvfs volume_path).f_frsize : Int) *
              ((env.statvfs volume_path).f_bavail : Int)))
          (some (((env.statvfs volume_path).f_frsize : Int) *
            ((env.statvfs volume_path).f_bavail : Int))) ∧
      (∀ total used available : Int,
        NodeGetVolumeStats env volume_id volume_path =
          .ok total (some used) (some available) →
        used + available = total)) ∧
    (env.stat volume_path = some .blockOrOther →
      ∀ blocks : Nat,
        env.read_size_file ("/sys/class/block/" ++
          basename ((env.get_vol_device volume_id).1.getD "") ++ "/size") =
          some blocks →
        NodeGetVolumeStats env volume_id volume_path =
          .ok (512 * (blocks : Int)) none none) := by
  constructor
  · intro hdir
    have heq : NodeGetVolumeStats env volume_id volume_path =
        .ok (((env.statvfs volume_path).f_frsize : Int) *
            ((env.statvfs volume_path).f_blocks : Int))
          (some (((env.statvfs volume_path).f_frsize : Int) *
              ((env.statvfs volume_path).f_blocks : Int) -
            ((env.statvfs volume_path).f_frsize : Int) *
              ((env.statvfs volume_path).f_bavail : Int)))
          (some (((env.statvfs volume_path).f_frsize : Int) *
            ((env.statvfs volume_path).f_bavail : Int))) := by
      simp [NodeGetVolumeStats, hdir, hdev, hmatch]
    refine ⟨heq, ?_⟩
    intro total used available h
    rw [heq] at h
    injection h with h1 h2 h3
    injection h2 with h2
    injection h3 with h3
    omega
  · intro hblk blocks hread
    simp [NodeGetVolumeStats, hblk, hdev, hmatch, hread]

/-- C6 (witness): the block path of the fixture yields absent used and
available and total of 512 times the 2048 blocks read. -/
theorem C6_witness :
    NodeGetVolumeStats c6_env "v6" "/mnt/b" =
      .ok (512 * ((2048 : Nat) : Int)) none none :=
  (C6_usage_figures c6_env "v6" "/mnt/b" (by decide) (by decide)).2
    (by decide) 2048 (by decide)

/-- C7: when the configuration carries no node topology, the node-info
response built at construction carries no accessible-topology field, and
no wire volume conversion (whose GRPC_TOPOLOGIES comes from the topology
initializer on that configuration) carries one, for every volume. -/
theorem C7_topology_omitted_without_config (conf : EmberConfig)
    (caps : List ServiceType) (node_id : Option String) (vol : VolumeRecord)
    (h : truthyList conf.node_topology = false) :
    (nodeInit conf caps node_id).node_info_resp.accessible_topology = none ∧
    (_convert_volume_type (initTopology conf) vol).accessible_topology = none := by
  constructor
  · simp [nodeInit, nodeTopology, h]
  · have h2 : initTopology conf = none := by simp [initTopology, h]
    simp [_convert_volume_type, h2, truthyList]

/-- C7 (witness): with no configured topology, both response kinds omit
the field. -/
theorem C7_witness :
    (nodeInit c7_conf [] none).node_info_resp.accessible_topology = none ∧
    (_convert_volume_type (initTopology c7_conf) c7_vol).accessible_topology =
      none :=
  C7_topology_omitted_without_config c7_conf [] none c7_vol rfl

/-- C9: iterating the node constructor's capability registration any
number of times leaves at most one occurrence of the
accessibility-constraints capability in the advertised plugin-capability
list, provided the initial list held at most one. -/
theorem C9_topo_registration_idempotent (conf : EmberConfig)
    (node_id : Option String) (caps : List ServiceType) (n : Nat)
    (h : countCap caps topo_capab ≤ 1) :
    countCap
      ((fun cs => (nodeInit conf cs node_id).plugin_capabilities)^[n] caps)
      topo_capab ≤ 1 := by
  induction n with
  | zero => simpa using h
  | succ m ih =>
    rw [Function.iterate_succ_apply']
    exact nodeInitCaps_count_le conf _ ih

/-- C9 (witness): two constructions with topology configured leave one
occurrence at most, starting from the empty capability list. -/
theorem C9_witness :
    countCap
      ((fun cs => (nodeInit c9_conf cs none).plugin_capabilities)^[2] [])
      topo_capab ≤ 1 :=
  C9_topo_registration_idempotent c9_conf none [] 2 (by decide)

end EmberCSI
